import Mathlib

/-!
Shallow embedding of the x402 PoC facilitator (`src/facilitator.ts`) and the
payment data model it operates on.  Machine numbers in the source are JS
numbers used only as Unix-second timestamps and protocol versions, modelled as
`Nat`; amounts travel as decimal strings and are compared as strings, exactly
as the source does.  The ethers signature-recovery primitive and the JSON/
base64 codec are external libraries, modelled abstractly (see `Recover` and
`PaymentHeader`).
-/

namespace X402

/-- EIP-3009 authorization body carried inside the payment payload
(`from`, `to`, `value`, `validAfter`, `validBefore`, `nonce`, `signature`);
`from` is renamed `from_` because `from` is a Lean keyword. -/
structure EIP3009Payload where
  from_ : String
  to_ : String
  value : String
  validAfter : Nat
  validBefore : Nat
  nonce : String
  signature : String
deriving DecidableEq, Repr

/-- The transport payload `{x402Version, scheme, network, payload}`. -/
structure PaymentPayload where
  x402Version : Nat
  scheme : String
  network : String
  payload : EIP3009Payload
deriving DecidableEq, Repr

/-- Optional requirement metadata `extra?: {name?, version?}` feeding the
EIP-712 domain. -/
structure ExtraInfo where
  name : Option String
  version : Option String
deriving DecidableEq, Repr

/-- A price requirement as consumed by the facilitator. -/
structure PaymentRequirement where
  scheme : String
  network : String
  maxAmountRequired : String
  payTo : String
  asset : String
  maxTimeoutSeconds : Nat
  extra : Option ExtraInfo
deriving DecidableEq, Repr

/-- A transport header string.  `Buffer.from(header, 'base64')` followed by
`JSON.parse` either yields a `PaymentPayload` or throws with some error
message `m`; the base64/JSON codec itself is a library, so a header is
modelled by its decode outcome. -/
inductive PaymentHeader where
  | wellFormed (payload : PaymentPayload)
  | malformed (errMsg : String)
deriving DecidableEq, Repr

/-- Decoding a header: the `Buffer.from`/`JSON.parse` step at the top of
`verify` and again inside `settle`. -/
def decodeHeader : PaymentHeader → Except String PaymentPayload
  | .wellFormed p => .ok p
  | .malformed m => .error m

/-- JavaScript `x || fallback` on an optional string: `null`/`undefined` and
the empty string are falsy. -/
def jsOrString (value : Option String) (fallback : String) : String :=
  match value with
  | none => fallback
  | some s => if s = "" then fallback else s

/-- EIP-712 domain separator fields. -/
structure EIP712Domain where
  name : String
  version : String
  chainId : Nat
  verifyingContract : String
deriving DecidableEq, Repr

/-- The six-field `TransferWithAuthorization` message that gets signed. -/
structure TransferWithAuthorization where
  from_ : String
  to_ : String
  value : String
  validAfter : Nat
  validBefore : Nat
  nonce : String
deriving DecidableEq, Repr

/-- Model of `SimpleFacilitator.getChainId`: fixed network → chain-id table with
`|| 1` fallback for unrecognized networks. -/
def getChainId (network : String) : Nat :=
  if network = "base-sepolia" then 84532
  else if network = "base" then 8453
  else if network = "ethereum" then 1
  else if network = "sepolia" then 11155111
  else 1

/-- JS `String.prototype.toLowerCase()` on the ASCII address strings the
facilitator compares: lowercase every character (a kernel-reducible form of
`String.toLower`). -/
def strToLower (s : String) : String :=
  ⟨s.data.map Char.toLower⟩

/-- Abstract model of `ethers.verifyTypedData`: given the EIP-712 domain, the
typed message and the signature string, recovery either returns the recovered
address or fails (`none` models a thrown recovery error). -/
def Recover : Type :=
  EIP712Domain → TransferWithAuthorization → String → Option String

/-- The EIP-712 domain `verifyEIP3009Signature` builds from the requirement:
`extra?.name || 'USD Coin'`, `extra?.version || '2'`, `getChainId(network)`,
`verifyingContract = asset`. -/
def buildDomain (requirements : PaymentRequirement) : EIP712Domain :=
  { name := jsOrString (Option.bind requirements.extra ExtraInfo.name) "USD Coin"
    version := jsOrString (Option.bind requirements.extra ExtraInfo.version) "2"
    chainId := getChainId requirements.network
    verifyingContract := requirements.asset }

/-- The message `verifyEIP3009Signature` passes to recovery: the payload's six
authorization fields. -/
def buildMessage (payload : EIP3009Payload) : TransferWithAuthorization :=
  { from_ := payload.from_
    to_ := payload.to_
    value := payload.value
    validAfter := payload.validAfter
    validBefore := payload.validBefore
    nonce := payload.nonce }

/-- Model of `SimpleFacilitator.verifyEIP3009Signature`: recover the signer over the
domain-bound message; any recovery failure yields `false`; otherwise compare
the recovered address case-insensitively with `payload.from`. -/
def verifyEIP3009Signature (recover : Recover) (payload : EIP3009Payload)
    (requirements : PaymentRequirement) : Bool :=
  match recover (buildDomain requirements) (buildMessage payload) payload.signature with
  | none => false
  | some recoveredAddress => strToLower recoveredAddress == strToLower payload.from_

/-- Model of `VerifyResponse`, i.e. isValid plus invalidReason. -/
structure VerifyResponse where
  isValid : Bool
  invalidReason : Option String
deriving DecidableEq, Repr

/-- Model of `SettleResponse`: either success with txHash and networkId, or
`{success: false, error}`. -/
inductive SettleResponse where
  | success (txHash : String) (networkId : String)
  | failure (error : String)
deriving DecidableEq, Repr

/-- The facilitator's only state: the `usedNonces : Set<string>`. -/
structure SimpleFacilitator where
  usedNonces : List String
deriving DecidableEq, Repr

/-- JS `Set.add`: insert without duplication. -/
def setAdd (s : List String) (x : String) : List String :=
  if x ∈ s then s else x :: s

/-- Model of `SimpleFacilitator.verify(paymentHeader, paymentRequirements)`: decode,
then check version, scheme/network, and — in the `'exact'` branch — nonce
reuse, amount, recipient, expiry and signature in source order; every branch
returns a typed `VerifyResponse` and the state untouched.  `now` is
`Math.floor(Date.now() / 1000)`; `recover` the ethers recovery primitive. -/
def SimpleFacilitator.verify (recover : Recover) (fac : SimpleFacilitator)
    (paymentHeader : PaymentHeader) (paymentRequirements : PaymentRequirement)
    (now : Nat) : VerifyResponse × SimpleFacilitator :=
  match decodeHeader paymentHeader with
  | .error e => (⟨false, some ("Verification failed: " ++ e)⟩, fac)
  | .ok paymentPayload =>
    if paymentPayload.x402Version ≠ 1 then
      (⟨false, some "Unsupported x402 version"⟩, fac)
    else if paymentPayload.scheme ≠ paymentRequirements.scheme ∨
        paymentPayload.network ≠ paymentRequirements.network then
      (⟨false, some "Scheme or network mismatch"⟩, fac)
    else if paymentPayload.scheme = "exact" then
      let eip3009Payload := paymentPayload.payload
      if eip3009Payload.nonce ∈ fac.usedNonces then
        (⟨false, some "Nonce already used"⟩, fac)
      else if eip3009Payload.value ≠ paymentRequirements.maxAmountRequired then
        (⟨false, some "Payment amount mismatch"⟩, fac)
      else if strToLower eip3009Payload.to_ ≠ strToLower paymentRequirements.payTo then
        (⟨false, some "Payment recipient mismatch"⟩, fac)
      else if eip3009Payload.validBefore < now then
        (⟨false, some "Payment expired"⟩, fac)
      else if verifyEIP3009Signature recover eip3009Payload paymentRequirements = false then
        (⟨false, some "Invalid signature"⟩, fac)
      else
        (⟨true, none⟩, fac)
    else
      (⟨false, some "Unsupported payment scheme"⟩, fac)

/-- The continuation of `settle` after its `await this.verify(...)` resolves:
on invalid verification return `failure(invalidReason || 'Payment verification
failed')`; otherwise re-decode the header (the `try` block: a decode throw
would map to `Settlement failed: ...`), mark the nonce used, and return
`success` with the simulated transaction hash and the payload's network. -/
def SimpleFacilitator.settleCommit (fac : SimpleFacilitator)
    (verification : VerifyResponse) (paymentHeader : PaymentHeader)
    (fakeTxHash : String) : SettleResponse × SimpleFacilitator :=
  if verification.isValid = false then
    (.failure (jsOrString verification.invalidReason "Payment verification failed"), fac)
  else
    match decodeHeader paymentHeader with
    | .error e => (.failure ("Settlement failed: " ++ e), fac)
    | .ok paymentPayload =>
      (.success fakeTxHash paymentPayload.network,
       ⟨setAdd fac.usedNonces paymentPayload.payload.nonce⟩)

/-- Model of `SimpleFacilitator.settle(paymentHeader, paymentRequirements)`: re-run
`verify`, then commit.  `fakeTxHash` stands for the randomly generated
simulated transaction hash. -/
def SimpleFacilitator.settle (recover : Recover) (fac : SimpleFacilitator)
    (paymentHeader : PaymentHeader) (paymentRequirements : PaymentRequirement)
    (now : Nat) (fakeTxHash : String) : SettleResponse × SimpleFacilitator :=
  let v := SimpleFacilitator.verify recover fac paymentHeader paymentRequirements now
  SimpleFacilitator.settleCommit v.2 v.1 paymentHeader fakeTxHash

/-- Model of `Promise.all([settle(h1, r1), settle(h2, r2)])` on the Node event loop:
each `settle` synchronously enters `verify`, whose checks — including the
`usedNonces.has(nonce)` lookup — all run before `verify`'s first `await`
(the signature-recovery await), so both verifications read the initial
`usedNonces`; the two commit continuations (`usedNonces.add` and the return)
then run in order on later microtask turns. -/
def SimpleFacilitator.settleConcurrent (recover : Recover) (fac : SimpleFacilitator)
    (h1 : PaymentHeader) (r1 : PaymentRequirement)
    (h2 : PaymentHeader) (r2 : PaymentRequirement)
    (now : Nat) (tx1 tx2 : String) :
    SettleResponse × SettleResponse × SimpleFacilitator :=
  let v1 := (SimpleFacilitator.verify recover fac h1 r1 now).1
  let v2 := (SimpleFacilitator.verify recover fac h2 r2 now).1
  let c1 := SimpleFacilitator.settleCommit fac v1 h1 tx1
  let c2 := SimpleFacilitator.settleCommit c1.2 v2 h2 tx2
  (c1.1, c2.1, c2.2)

/-- The fixed failure-reason strings the facilitator can produce outside the
decode-failure catch path. -/
def fixedReasons : List String :=
  ["Unsupported x402 version", "Scheme or network mismatch", "Nonce already used",
   "Payment amount mismatch", "Payment recipient mismatch", "Payment expired",
   "Invalid signature", "Unsupported payment scheme"]

/-- Concrete requirement fixture (the end-to-end scenario of the README). -/
def reqEx : PaymentRequirement :=
  { scheme := "exact", network := "base-sepolia", maxAmountRequired := "1000000",
    payTo := "0xRecipient", asset := "0xUSDC", maxTimeoutSeconds := 60, extra := none }

/-- Concrete authorization fixture matching `reqEx`. -/
def payEx : EIP3009Payload :=
  { from_ := "0xAbCd", to_ := "0xrecipient", value := "1000000", validAfter := 0,
    validBefore := 100, nonce := "0xn1", signature := "sig1" }

/-- Concrete transport payload fixture wrapping `payEx`. -/
def payloadEx : PaymentPayload :=
  { x402Version := 1, scheme := "exact", network := "base-sepolia", payload := payEx }

/-- Concrete well-formed header fixture wrapping `payloadEx`. -/
def headerEx : PaymentHeader := .wellFormed payloadEx

/-- Concrete recovery fixture: every signature recovers to `payEx`'s signer. -/
def recoverEx : Recover := fun _ _ _ => some "0xabcd"

/-! Stage lemmas: one per return site of `verify`, each hypothesising exactly
the checks the source evaluates before reaching that return. -/

lemma verify_snd_eq (recover : Recover) (fac : SimpleFacilitator) (h : PaymentHeader)
    (req : PaymentRequirement) (now : Nat) :
    (SimpleFacilitator.verify recover fac h req now).2 = fac := by
  cases h with
  | malformed m => rfl
  | wellFormed p =>
    simp only [SimpleFacilitator.verify, decodeHeader]
    split_ifs <;> rfl

lemma verify_malformed_eq (recover : Recover) (fac : SimpleFacilitator) (m : String)
    (req : PaymentRequirement) (now : Nat) :
    SimpleFacilitator.verify recover fac (.malformed m) req now =
      (⟨false, some ("Verification failed: " ++ m)⟩, fac) := rfl

lemma verify_badVersion_eq (recover : Recover) (fac : SimpleFacilitator)
    (p : PaymentPayload) (req : PaymentRequirement) (now : Nat)
    (h1 : p.x402Version ≠ 1) :
    SimpleFacilitator.verify recover fac (.wellFormed p) req now =
      (⟨false, some "Unsupported x402 version"⟩, fac) := by
  simp [SimpleFacilitator.verify, decodeHeader, h1]

lemma verify_mismatch_eq (recover : Recover) (fac : SimpleFacilitator)
    (p : PaymentPayload) (req : PaymentRequirement) (now : Nat)
    (h1 : p.x402Version = 1)
    (h2 : p.scheme ≠ req.scheme ∨ p.network ≠ req.network) :
    SimpleFacilitator.verify recover fac (.wellFormed p) req now =
      (⟨false, some "Scheme or network mismatch"⟩, fac) := by
  simp only [SimpleFacilitator.verify, decodeHeader]
  rw [if_neg (by simp [h1]), if_pos h2]

lemma verify_nonexact_eq (recover : Recover) (fac : SimpleFacilitator)
    (p : PaymentPayload) (req : PaymentRequirement) (now : Nat)
    (h1 : p.x402Version = 1) (hs : p.scheme = req.scheme) (hn : p.network = req.network)
    (he : p.scheme ≠ "exact") :
    SimpleFacilitator.verify recover fac (.wellFormed p) req now =
      (⟨false, some "Unsupported payment scheme"⟩, fac) := by
  have hreq : req.scheme ≠ "exact" := hs ▸ he
  simp [SimpleFacilitator.verify, decodeHeader, h1, hs, hn, hreq]

lemma verify_nonceUsed_eq (recover : Recover) (fac : SimpleFacilitator)
    (p : PaymentPayload) (req : PaymentRequirement) (now : Nat)
    (h1 : p.x402Version = 1) (hs : p.scheme = req.scheme) (hn : p.network = req.network)
    (he : p.scheme = "exact") (hu : p.payload.nonce ∈ fac.usedNonces) :
    SimpleFacilitator.verify recover fac (.wellFormed p) req now =
      (⟨false, some "Nonce already used"⟩, fac) := by
  have hreq : req.scheme = "exact" := hs ▸ he
  simp [SimpleFacilitator.verify, decodeHeader, h1, he, hreq, hn, hu]

lemma verify_amountMismatch_eq (recover : Recover) (fac : SimpleFacilitator)
    (p : PaymentPayload) (req : PaymentRequirement) (now : Nat)
    (h1 : p.x402Version = 1) (hs : p.scheme = req.scheme) (hn : p.network = req.network)
    (he : p.scheme = "exact") (hu : p.payload.nonce ∉ fac.usedNonces)
    (hv : p.payload.value ≠ req.maxAmountRequired) :
    SimpleFacilitator.verify recover fac (.wellFormed p) req now =
      (⟨false, some "Payment amount mismatch"⟩, fac) := by
  have hreq : req.scheme = "exact" := hs ▸ he
  simp [SimpleFacilitator.verify, decodeHeader, h1, he, hreq, hn, hu, hv]

lemma verify_recipientMismatch_eq (recover : Recover) (fac : SimpleFacilitator)
    (p : PaymentPayload) (req : PaymentRequirement) (now : Nat)
    (h1 : p.x402Version = 1) (hs : p.scheme = req.scheme) (hn : p.network = req.network)
    (he : p.scheme = "exact") (hu : p.payload.nonce ∉ fac.usedNonces)
    (hv : p.payload.value = req.maxAmountRequired)
    (ht : strToLower p.payload.to_ ≠ strToLower req.payTo) :
    SimpleFacilitator.verify recover fac (.wellFormed p) req now =
      (⟨false, some "Payment recipient mismatch"⟩, fac) := by
  have hreq : req.scheme = "exact" := hs ▸ he
  simp [SimpleFacilitator.verify, decodeHeader, h1, he, hreq, hn, hu, hv, ht]

lemma verify_expired_eq (recover : Recover) (fac : SimpleFacilitator)
    (p : PaymentPayload) (req : PaymentRequirement) (now : Nat)
    (h1 : p.x402Version = 1) (hs : p.scheme = req.scheme) (hn : p.network = req.network)
    (he : p.scheme = "exact") (hu : p.payload.nonce ∉ fac.usedNonces)
    (hv : p.payload.value = req.maxAmountRequired)
    (ht : strToLower p.payload.to_ = strToLower req.payTo)
    (hx : p.payload.validBefore < now) :
    SimpleFacilitator.verify recover fac (.wellFormed p) req now =
      (⟨false, some "Payment expired"⟩, fac) := by
  have hreq : req.scheme = "exact" := hs ▸ he
  simp [SimpleFacilitator.verify, decodeHeader, h1, he, hreq, hn, hu, hv, ht, hx]

lemma verify_badSig_eq (recover : Recover) (fac : SimpleFacilitator)
    (p : PaymentPayload) (req : PaymentRequirement) (now : Nat)
    (h1 : p.x402Version = 1) (hs : p.scheme = req.scheme) (hn : p.network = req.network)
    (he : p.scheme = "exact") (hu : p.payload.nonce ∉ fac.usedNonces)
    (hv : p.payload.value = req.maxAmountRequired)
    (ht : strToLower p.payload.to_ = strToLower req.payTo)
    (hx : ¬ p.payload.validBefore < now)
    (hsig : verifyEIP3009Signature recover p.payload req = false) :
    SimpleFacilitator.verify recover fac (.wellFormed p) req now =
      (⟨false, some "Invalid signature"⟩, fac) := by
  have hreq : req.scheme = "exact" := hs ▸ he
  simp [SimpleFacilitator.verify, decodeHeader, h1, he, hreq, hn, hu, hv, ht, hx, hsig]

lemma verify_valid_eq (recover : Recover) (fac : SimpleFacilitator)
    (p : PaymentPayload) (req : PaymentRequirement) (now : Nat)
    (h1 : p.x402Version = 1) (hs : p.scheme = req.scheme) (hn : p.network = req.network)
    (he : p.scheme = "exact") (hu : p.payload.nonce ∉ fac.usedNonces)
    (hv : p.payload.value = req.maxAmountRequired)
    (ht : strToLower p.payload.to_ = strToLower req.payTo)
    (hx : ¬ p.payload.validBefore < now)
    (hsig : verifyEIP3009Signature recover p.payload req = true) :
    SimpleFacilitator.verify recover fac (.wellFormed p) req now =
      (⟨true, none⟩, fac) := by
  have hreq : req.scheme = "exact" := hs ▸ he
  simp [SimpleFacilitator.verify, decodeHeader, h1, he, hreq, hn, hu, hv, ht, hx, hsig]

lemma verify_valid_inv (recover : Recover) (fac : SimpleFacilitator) (h : PaymentHeader)
    (req : PaymentRequirement) (now : Nat)
    (hval : (SimpleFacilitator.verify recover fac h req now).1.isValid = true) :
    ∃ p, decodeHeader h = .ok p ∧ p.x402Version = 1 ∧ p.scheme = req.scheme ∧
      p.network = req.network ∧ p.scheme = "exact" ∧ p.payload.nonce ∉ fac.usedNonces ∧
      p.payload.value = req.maxAmountRequired ∧
      strToLower p.payload.to_ = strToLower req.payTo ∧ ¬ p.payload.validBefore < now ∧
      verifyEIP3009Signature recover p.payload req = true ∧
      (SimpleFacilitator.verify recover fac h req now).1 = ⟨true, none⟩ := by
  cases h with
  | malformed m =>
    rw [verify_malformed_eq] at hval
    simp at hval
  | wellFormed p =>
    by_cases h1 : p.x402Version = 1
    · by_cases hs : p.scheme = req.scheme
      · by_cases hn : p.network = req.network
        · by_cases he : p.scheme = "exact"
          · by_cases hu : p.payload.nonce ∈ fac.usedNonces
            · rw [verify_nonceUsed_eq recover fac p req now h1 hs hn he hu] at hval
              simp at hval
            · by_cases hv : p.payload.value = req.maxAmountRequired
              · by_cases ht : strToLower p.payload.to_ = strToLower req.payTo
                · by_cases hx : p.payload.validBefore < now
                  · rw [verify_expired_eq recover fac p req now h1 hs hn he hu hv ht hx] at hval
                    simp at hval
                  · cases hsig : verifyEIP3009Signature recover p.payload req with
                    | false =>
                      rw [verify_badSig_eq recover fac p req now h1 hs hn he hu hv ht hx hsig] at hval
                      simp at hval
                    | true =>
                      exact ⟨p, rfl, h1, hs, hn, he, hu, hv, ht, hx, hsig,
                        by rw [verify_valid_eq recover fac p req now h1 hs hn he hu hv ht hx hsig]⟩
                · rw [verify_recipientMismatch_eq recover fac p req now h1 hs hn he hu hv ht] at hval
                  simp at hval
              · rw [verify_amountMismatch_eq recover fac p req now h1 hs hn he hu hv] at hval
                simp at hval
          · rw [verify_nonexact_eq recover fac p req now h1 hs hn he] at hval
            simp at hval
        · rw [verify_mismatch_eq recover fac p req now h1 (Or.inr hn)] at hval
          simp at hval
      · rw [verify_mismatch_eq recover fac p req now h1 (Or.inl hs)] at hval
        simp at hval
    · rw [verify_badVersion_eq recover fac p req now h1] at hval
      simp at hval

lemma verify_reason_shape (recover : Recover) (fac : SimpleFacilitator) (h : PaymentHeader)
    (req : PaymentRequirement) (now : Nat) :
    (SimpleFacilitator.verify recover fac h req now).1 = ⟨true, none⟩ ∨
    ∃ s, (SimpleFacilitator.verify recover fac h req now).1 = ⟨false, some s⟩ ∧
      (s ∈ fixedReasons ∨ ∃ m, h = PaymentHeader.malformed m ∧
        s = "Verification failed: " ++ m) := by
  cases h with
  | malformed m =>
    exact Or.inr ⟨_, by rw [verify_malformed_eq], Or.inr ⟨m, rfl, rfl⟩⟩
  | wellFormed p =>
    by_cases h1 : p.x402Version = 1
    · by_cases hs : p.scheme = req.scheme
      · by_cases hn : p.network = req.network
        · by_cases he : p.scheme = "exact"
          · by_cases hu : p.payload.nonce ∈ fac.usedNonces
            · exact Or.inr ⟨_, by rw [verify_nonceUsed_eq recover fac p req now h1 hs hn he hu],
                Or.inl (by simp [fixedReasons])⟩
            · by_cases hv : p.payload.value = req.maxAmountRequired
              · by_cases ht : strToLower p.payload.to_ = strToLower req.payTo
                · by_cases hx : p.payload.validBefore < now
                  · exact Or.inr ⟨_,
                      by rw [verify_expired_eq recover fac p req now h1 hs hn he hu hv ht hx],
                      Or.inl (by simp [fixedReasons])⟩
                  · cases hsig : verifyEIP3009Signature recover p.payload req with
                    | false =>
                      exact Or.inr ⟨_,
                        by rw [verify_badSig_eq recover fac p req now h1 hs hn he hu hv ht hx hsig],
                        Or.inl (by simp [fixedReasons])⟩
                    | true =>
                      exact Or.inl
                        (by rw [verify_valid_eq recover fac p req now h1 hs hn he hu hv ht hx hsig])
                · exact Or.inr ⟨_,
                    by rw [verify_recipientMismatch_eq recover fac p req now h1 hs hn he hu hv ht],
                    Or.inl (by simp [fixedReasons])⟩
              · exact Or.inr ⟨_,
                  by rw [verify_amountMismatch_eq recover fac p req now h1 hs hn he hu hv],
                  Or.inl (by simp [fixedReasons])⟩
          · exact Or.inr ⟨_, by rw [verify_nonexact_eq recover fac p req now h1 hs hn he],
              Or.inl (by simp [fixedReasons])⟩
        · exact Or.inr ⟨_, by rw [verify_mismatch_eq recover fac p req now h1 (Or.inr hn)],
            Or.inl (by simp [fixedReasons])⟩
      · exact Or.inr ⟨_, by rw [verify_mismatch_eq recover fac p req now h1 (Or.inl hs)],
          Or.inl (by simp [fixedReasons])⟩
    · exact Or.inr ⟨_, by rw [verify_badVersion_eq recover fac p req now h1],
        Or.inl (by simp [fixedReasons])⟩

lemma fixedReasons_ne_empty (s : String) (hmem : s ∈ fixedReasons) : s ≠ "" := by
  simp only [fixedReasons, List.mem_cons, List.not_mem_nil, or_false] at hmem
  rcases hmem with rfl | rfl | rfl | rfl | rfl | rfl | rfl | rfl <;> decide

lemma verFailed_ne_empty (m : String) : "Verification failed: " ++ m ≠ "" := by
  intro hc
  have hd : ("Verification failed: " ++ m).data = "Verification failed: ".data ++ m.data := rfl
  rw [hc] at hd
  simp at hd

lemma verify_nonceReused_inv (recover : Recover) (fac : SimpleFacilitator)
    (p : PaymentPayload) (req : PaymentRequirement) (now : Nat)
    (hr : (SimpleFacilitator.verify recover fac (.wellFormed p) req now).1.invalidReason =
      some "Nonce already used") :
    p.x402Version = 1 ∧ p.scheme = req.scheme ∧ p.network = req.network ∧
    p.scheme = "exact" ∧ p.payload.nonce ∈ fac.usedNonces := by
  by_cases h1 : p.x402Version = 1
  · by_cases hs : p.scheme = req.scheme
    · by_cases hn : p.network = req.network
      · by_cases he : p.scheme = "exact"
        · by_cases hu : p.payload.nonce ∈ fac.usedNonces
          · exact ⟨h1, hs, hn, he, hu⟩
          · by_cases hv : p.payload.value = req.maxAmountRequired
            · by_cases ht : strToLower p.payload.to_ = strToLower req.payTo
              · by_cases hx : p.payload.validBefore < now
                · rw [verify_expired_eq recover fac p req now h1 hs hn he hu hv ht hx] at hr
                  exact absurd (Option.some.inj hr) (by decide)
                · cases hsig : verifyEIP3009Signature recover p.payload req with
                  | false =>
                    rw [verify_badSig_eq recover fac p req now h1 hs hn he hu hv ht hx hsig] at hr
                    exact absurd (Option.some.inj hr) (by decide)
                  | true =>
                    rw [verify_valid_eq recover fac p req now h1 hs hn he hu hv ht hx hsig] at hr
                    exact Option.noConfusion hr
              · rw [verify_recipientMismatch_eq recover fac p req now h1 hs hn he hu hv ht] at hr
                exact absurd (Option.some.inj hr) (by decide)
            · rw [verify_amountMismatch_eq recover fac p req now h1 hs hn he hu hv] at hr
              exact absurd (Option.some.inj hr) (by decide)
        · rw [verify_nonexact_eq recover fac p req now h1 hs hn he] at hr
          exact absurd (Option.some.inj hr) (by decide)
      · rw [verify_mismatch_eq recover fac p req now h1 (Or.inr hn)] at hr
        exact absurd (Option.some.inj hr) (by decide)
    · rw [verify_mismatch_eq recover fac p req now h1 (Or.inl hs)] at hr
      exact absurd (Option.some.inj hr) (by decide)
  · rw [verify_badVersion_eq recover fac p req now h1] at hr
    exact absurd (Option.some.inj hr) (by decide)

lemma mem_setAdd_self (s : List String) (x : String) : x ∈ setAdd s x := by
  simp only [setAdd]
  split_ifs with hx
  · exact hx
  · exact List.mem_cons_self x s

lemma mem_setAdd_of_mem (s : List String) (x m : String) (hm : m ∈ s) : m ∈ setAdd s x := by
  simp only [setAdd]
  split_ifs with hx
  · exact hm
  · exact List.mem_cons_of_mem x hm

lemma settle_of_invalid (recover : Recover) (fac : SimpleFacilitator) (h : PaymentHeader)
    (req : PaymentRequirement) (now : Nat) (tx s : String)
    (hinv : (SimpleFacilitator.verify recover fac h req now).1 = ⟨false, some s⟩)
    (hne : s ≠ "") :
    SimpleFacilitator.settle recover fac h req now tx = (.failure s, fac) := by
  have hst := verify_snd_eq recover fac h req now
  simp [SimpleFacilitator.settle, SimpleFacilitator.settleCommit, hinv, hst, jsOrString, hne]

lemma settle_of_valid (recover : Recover) (fac : SimpleFacilitator) (p : PaymentPayload)
    (req : PaymentRequirement) (now : Nat) (tx : String)
    (hval : (SimpleFacilitator.verify recover fac (.wellFormed p) req now).1 = ⟨true, none⟩) :
    SimpleFacilitator.settle recover fac (.wellFormed p) req now tx =
      (.success tx p.network, ⟨setAdd fac.usedNonces p.payload.nonce⟩) := by
  have hst := verify_snd_eq recover fac (.wellFormed p) req now
  simp [SimpleFacilitator.settle, SimpleFacilitator.settleCommit, hval, hst, decodeHeader]

lemma settle_shape (recover : Recover) (fac : SimpleFacilitator) (h : PaymentHeader)
    (req : PaymentRequirement) (now : Nat) (tx : String) :
    (∃ p, decodeHeader h = .ok p ∧ p.payload.nonce ∉ fac.usedNonces ∧
      SimpleFacilitator.settle recover fac h req now tx =
        (.success tx p.network, ⟨setAdd fac.usedNonces p.payload.nonce⟩)) ∨
    (∃ s, SimpleFacilitator.settle recover fac h req now tx = (.failure s, fac) ∧
      (s ∈ fixedReasons ∨ ∃ m, h = PaymentHeader.malformed m ∧
        s = "Verification failed: " ++ m)) := by
  rcases verify_reason_shape recover fac h req now with hval | ⟨s, hinv, hshape⟩
  · have hv : (SimpleFacilitator.verify recover fac h req now).1.isValid = true := by
      rw [hval]
    obtain ⟨p, hdec, -, -, -, -, hu, -⟩ := verify_valid_inv recover fac h req now hv
    cases h with
    | malformed m => simp [decodeHeader] at hdec
    | wellFormed p' =>
      have hp : p' = p := by simpa [decodeHeader] using hdec
      subst hp
      exact Or.inl ⟨p', rfl, hu, settle_of_valid recover fac p' req now tx hval⟩
  · have hne : s ≠ "" := by
      rcases hshape with hmem | ⟨m, -, rfl⟩
      · exact fixedReasons_ne_empty s hmem
      · exact verFailed_ne_empty m
    exact Or.inr ⟨s, settle_of_invalid recover fac h req now tx s hinv hne, hshape⟩

/-- Header fixture carrying `payEx` (hence nonce `"0xn1"`) but protocol
version 2. -/
def headerBadVer : PaymentHeader :=
  .wellFormed { x402Version := 2, scheme := "exact", network := "base-sepolia",
                payload := payEx }

/-- Transport payload fixture carrying the consumed nonce `"0xn1"` together
with a wrong amount, wrong recipient and an already-expired window. -/
def payloadBadAll : PaymentPayload :=
  { x402Version := 1, scheme := "exact", network := "base-sepolia",
    payload := { payEx with value := "999999", to_ := "0xother", validBefore := 0 } }

/-- Requirement fixture whose scheme is `"foo"`, not `"exact"`. -/
def reqFoo : PaymentRequirement := { reqEx with scheme := "foo" }

/-- Transport payload fixture matching `reqFoo`'s scheme and network. -/
def payloadFoo : PaymentPayload :=
  { x402Version := 1, scheme := "foo", network := "base-sepolia", payload := payEx }

/-- Header fixture wrapping `payloadFoo`. -/
def headerFoo : PaymentHeader := .wellFormed payloadFoo

/-- Requirement fixture on a network outside the chain-id table. -/
def reqPoly : PaymentRequirement := { reqEx with network := "polygon" }

/-- Transport payload fixture matching `reqPoly`. -/
def payloadPoly : PaymentPayload :=
  { x402Version := 1, scheme := "exact", network := "polygon", payload := payEx }

/-- C1 counterexample: `settle` succeeds for the nonce `"0xn1"`, yet a later
`verify` on a header carrying that same nonce but protocol version 2 reports
the unsupported-version reason, not the nonce-reused one — the claim's
"returns invalid with the nonce-reused reason" fails for that later call. -/
theorem settled_nonce_reason_cex :
    (SimpleFacilitator.settle recoverEx ⟨[]⟩ headerEx reqEx 100 "0xtx").1 =
      SettleResponse.success "0xtx" "base-sepolia" ∧
    (SimpleFacilitator.verify recoverEx
        (SimpleFacilitator.settle recoverEx ⟨[]⟩ headerEx reqEx 100 "0xtx").2
        headerBadVer reqEx 100).1 =
      ⟨false, some "Unsupported x402 version"⟩ ∧
    (SimpleFacilitator.verify recoverEx
        (SimpleFacilitator.settle recoverEx ⟨[]⟩ headerEx reqEx 100 "0xtx").2
        headerBadVer reqEx 100).1.invalidReason ≠ some "Nonce already used" := by
  decide

/-- C1 (amended): once `settle` succeeds for a header whose authorization
carries nonce `n`, `n` enters the used-nonce set, no later `verify` or
`settle` removes it, and as long as `n` is in the set: every `verify` on a
header carrying `n` returns invalid, with the nonce-reused reason exactly when
the header also passes the version and scheme/network checks with scheme
`"exact"` (the "exactly" is proved in both directions) and with the earlier
failing check's reason otherwise (version, scheme/network and
unsupported-scheme cases enumerated); and every `settle` on a header carrying
`n` returns failure carrying `verify`'s reason, the nonce-reused one in the
matching case. -/
theorem settled_nonce_always_rejected :
    (∀ (recover : Recover) (fac : SimpleFacilitator) (h : PaymentHeader)
        (req : PaymentRequirement) (now : Nat) (tx : String) (p : PaymentPayload),
      decodeHeader h = .ok p →
      (∃ a b, (SimpleFacilitator.settle recover fac h req now tx).1 =
        SettleResponse.success a b) →
      p.payload.nonce ∈ (SimpleFacilitator.settle recover fac h req now tx).2.usedNonces) ∧
    (∀ (recover : Recover) (fac : SimpleFacilitator) (h : PaymentHeader)
        (req : PaymentRequirement) (now : Nat) (tx m : String), m ∈ fac.usedNonces →
      m ∈ (SimpleFacilitator.settle recover fac h req now tx).2.usedNonces) ∧
    (∀ (recover : Recover) (fac : SimpleFacilitator) (h : PaymentHeader)
        (req : PaymentRequirement) (now : Nat),
      (SimpleFacilitator.verify recover fac h req now).2 = fac) ∧
    (∀ (recover : Recover) (fac : SimpleFacilitator) (h : PaymentHeader)
        (req : PaymentRequirement) (now : Nat) (p : PaymentPayload),
      decodeHeader h = .ok p → p.payload.nonce ∈ fac.usedNonces →
      (SimpleFacilitator.verify recover fac h req now).1.isValid = false) ∧
    (∀ (recover : Recover) (fac : SimpleFacilitator) (h : PaymentHeader)
        (req : PaymentRequirement) (now : Nat) (p : PaymentPayload),
      decodeHeader h = .ok p → p.payload.nonce ∈ fac.usedNonces →
      p.x402Version = 1 → p.scheme = req.scheme → p.network = req.network →
      p.scheme = "exact" →
      (SimpleFacilitator.verify recover fac h req now).1 =
        ⟨false, some "Nonce already used"⟩) ∧
    (∀ (recover : Recover) (fac : SimpleFacilitator) (h : PaymentHeader)
        (req : PaymentRequirement) (now : Nat) (p : PaymentPayload),
      decodeHeader h = .ok p →
      (SimpleFacilitator.verify recover fac h req now).1.invalidReason =
        some "Nonce already used" →
      p.x402Version = 1 ∧ p.scheme = req.scheme ∧ p.network = req.network ∧
        p.scheme = "exact" ∧ p.payload.nonce ∈ fac.usedNonces) ∧
    (∀ (recover : Recover) (fac : SimpleFacilitator) (h : PaymentHeader)
        (req : PaymentRequirement) (now : Nat) (p : PaymentPayload),
      decodeHeader h = .ok p → p.payload.nonce ∈ fac.usedNonces →
      p.x402Version ≠ 1 →
      (SimpleFacilitator.verify recover fac h req now).1 =
        ⟨false, some "Unsupported x402 version"⟩) ∧
    (∀ (recover : Recover) (fac : SimpleFacilitator) (h : PaymentHeader)
        (req : PaymentRequirement) (now : Nat) (p : PaymentPayload),
      decodeHeader h = .ok p → p.payload.nonce ∈ fac.usedNonces →
      p.x402Version = 1 → p.scheme ≠ req.scheme ∨ p.network ≠ req.network →
      (SimpleFacilitator.verify recover fac h req now).1 =
        ⟨false, some "Scheme or network mismatch"⟩) ∧
    (∀ (recover : Recover) (fac : SimpleFacilitator) (h : PaymentHeader)
        (req : PaymentRequirement) (now : Nat) (p : PaymentPayload),
      decodeHeader h = .ok p → p.payload.nonce ∈ fac.usedNonces →
      p.x402Version = 1 → p.scheme = req.scheme → p.network = req.network →
      p.scheme ≠ "exact" →
      (SimpleFacilitator.verify recover fac h req now).1 =
        ⟨false, some "Unsupported payment scheme"⟩) ∧
    (∀ (recover : Recover) (fac : SimpleFacilitator) (h : PaymentHeader)
        (req : PaymentRequirement) (now : Nat) (tx : String) (p : PaymentPayload),
      decodeHeader h = .ok p → p.payload.nonce ∈ fac.usedNonces →
      ∃ s, (SimpleFacilitator.verify recover fac h req now).1 = ⟨false, some s⟩ ∧
        SimpleFacilitator.settle recover fac h req now tx = (.failure s, fac)) ∧
    (∀ (recover : Recover) (fac : SimpleFacilitator) (h : PaymentHeader)
        (req : PaymentRequirement) (now : Nat) (tx : String) (p : PaymentPayload),
      decodeHeader h = .ok p → p.payload.nonce ∈ fac.usedNonces →
      p.x402Version = 1 → p.scheme = req.scheme → p.network = req.network →
      p.scheme = "exact" →
      SimpleFacilitator.settle recover fac h req now tx =
        (.failure "Nonce already used", fac)) := by
  refine ⟨?_, ?_, ?_, ?_, ?_, ?_, ?_, ?_, ?_, ?_, ?_⟩
  · intro recover fac h req now tx p hdec hsucc
    obtain ⟨a, b, hs⟩ := hsucc
    rcases settle_shape recover fac h req now tx with ⟨p', hdec', hu, heq⟩ | ⟨s, heq, -⟩
    · injection hdec.symm.trans hdec' with hp
      subst hp
      rw [heq]
      exact mem_setAdd_self fac.usedNonces p.payload.nonce
    · rw [heq] at hs
      simp at hs
  · intro recover fac h req now tx m hm
    rcases settle_shape recover fac h req now tx with ⟨p', -, -, heq⟩ | ⟨s, heq, -⟩
    · rw [heq]
      exact mem_setAdd_of_mem fac.usedNonces p'.payload.nonce m hm
    · rw [heq]
      exact hm
  · exact verify_snd_eq
  · intro recover fac h req now p hdec hu
    cases hval : (SimpleFacilitator.verify recover fac h req now).1.isValid with
    | false => rfl
    | true =>
      obtain ⟨p', hdec', -, -, -, -, hu', -⟩ := verify_valid_inv recover fac h req now hval
      injection hdec.symm.trans hdec' with hp
      exact absurd (hp ▸ hu) hu'
  · intro recover fac h req now p hdec hu h1 hs hn he
    cases h with
    | malformed m => simp [decodeHeader] at hdec
    | wellFormed p' =>
      have hp : p' = p := by simpa [decodeHeader] using hdec
      subst hp
      rw [verify_nonceUsed_eq recover fac p' req now h1 hs hn he hu]
  · intro recover fac h req now p hdec hr
    cases h with
    | malformed m => simp [decodeHeader] at hdec
    | wellFormed p' =>
      have hp : p' = p := by simpa [decodeHeader] using hdec
      subst hp
      exact verify_nonceReused_inv recover fac p' req now hr
  · intro recover fac h req now p hdec hu h1
    cases h with
    | malformed m => simp [decodeHeader] at hdec
    | wellFormed p' =>
      have hp : p' = p := by simpa [decodeHeader] using hdec
      subst hp
      rw [verify_badVersion_eq recover fac p' req now h1]
  · intro recover fac h req now p hdec hu h1 h2
    cases h with
    | malformed m => simp [decodeHeader] at hdec
    | wellFormed p' =>
      have hp : p' = p := by simpa [decodeHeader] using hdec
      subst hp
      rw [verify_mismatch_eq recover fac p' req now h1 h2]
  · intro recover fac h req now p hdec hu h1 hs hn he
    cases h with
    | malformed m => simp [decodeHeader] at hdec
    | wellFormed p' =>
      have hp : p' = p := by simpa [decodeHeader] using hdec
      subst hp
      rw [verify_nonexact_eq recover fac p' req now h1 hs hn he]
  · intro recover fac h req now tx p hdec hu
    rcases verify_reason_shape recover fac h req now with hval | ⟨s, heq, hsh⟩
    · obtain ⟨p', hdec', -, -, -, -, hu', -⟩ :=
        verify_valid_inv recover fac h req now (by rw [hval])
      injection hdec.symm.trans hdec' with hp
      exact absurd (hp ▸ hu) hu'
    · have hne : s ≠ "" := by
        rcases hsh with hmem | ⟨m, -, rfl⟩
        · exact fixedReasons_ne_empty s hmem
        · exact verFailed_ne_empty m
      exact ⟨s, heq, settle_of_invalid recover fac h req now tx s heq hne⟩
  · intro recover fac h req now tx p hdec hu h1 hs hn he
    cases h with
    | malformed m => simp [decodeHeader] at hdec
    | wellFormed p' =>
      have hp : p' = p := by simpa [decodeHeader] using hdec
      subst hp
      exact settle_of_invalid recover fac (.wellFormed p') req now tx "Nonce already used"
        (congrArg Prod.fst (verify_nonceUsed_eq recover fac p' req now h1 hs hn he hu))
        (by decide)

/-- C1 witness: with the nonce `"0xn1"` already consumed, `verify` on
`headerEx` reports nonce reuse and `settle` fails with that reason; on the
same-nonce header with version 2 the earlier (version) check's reason is
reported and `settle` still fails, carrying `verify`'s reason. -/
theorem settled_nonce_always_rejected_wit :
    (SimpleFacilitator.verify recoverEx ⟨["0xn1"]⟩ headerEx reqEx 100).1 =
      ⟨false, some "Nonce already used"⟩ ∧
    SimpleFacilitator.settle recoverEx ⟨["0xn1"]⟩ headerEx reqEx 100 "0xtx" =
      (.failure "Nonce already used", ⟨["0xn1"]⟩) ∧
    (SimpleFacilitator.verify recoverEx ⟨["0xn1"]⟩ headerBadVer reqEx 100).1 =
      ⟨false, some "Unsupported x402 version"⟩ ∧
    (∃ s, (SimpleFacilitator.verify recoverEx ⟨["0xn1"]⟩ headerBadVer reqEx 100).1 =
        ⟨false, some s⟩ ∧
      SimpleFacilitator.settle recoverEx ⟨["0xn1"]⟩ headerBadVer reqEx 100 "0xtx" =
        (.failure s, ⟨["0xn1"]⟩)) :=
  ⟨(settled_nonce_always_rejected.2.2.2.2.1 recoverEx ⟨["0xn1"]⟩ headerEx reqEx 100 _
      rfl (by decide) rfl rfl rfl rfl),
   (settled_nonce_always_rejected.2.2.2.2.2.2.2.2.2.2 recoverEx ⟨["0xn1"]⟩ headerEx reqEx 100
      "0xtx" _ rfl (by decide) rfl rfl rfl rfl),
   (settled_nonce_always_rejected.2.2.2.2.2.2.1 recoverEx ⟨["0xn1"]⟩ headerBadVer reqEx 100 _
      rfl (by decide) (by decide)),
   (settled_nonce_always_rejected.2.2.2.2.2.2.2.2.2.1 recoverEx ⟨["0xn1"]⟩ headerBadVer reqEx
      100 "0xtx" _ rfl (by decide))⟩

/-- C2: `verify` never mutates the facilitator state — the used-nonce set is
the same before and after every call, whatever the outcome — and therefore
two consecutive `verify` calls with the same header, requirement and clock
reading (no intervening `settle`) return equal results. -/
theorem verify_readonly_idempotent (recover : Recover) (fac : SimpleFacilitator)
    (h : PaymentHeader) (req : PaymentRequirement) (now : Nat) :
    (SimpleFacilitator.verify recover fac h req now).2 = fac ∧
    (SimpleFacilitator.verify recover
        (SimpleFacilitator.verify recover fac h req now).2 h req now).1 =
      (SimpleFacilitator.verify recover fac h req now).1 := by
  refine ⟨verify_snd_eq recover fac h req now, ?_⟩
  rw [verify_snd_eq recover fac h req now]

/-- C3: `settle` re-runs verification first; whenever that verification is
invalid with reason `s`, `settle` returns `failure s` and the used-nonce set
is unchanged; when it is valid, the nonce — not previously in the set — is
added exactly once (`setAdd`), strictly as the only state change of the
success path. -/
theorem settle_verify_then_commit (recover : Recover) (fac : SimpleFacilitator)
    (h : PaymentHeader) (req : PaymentRequirement) (now : Nat) (tx : String) :
    ((SimpleFacilitator.verify recover fac h req now).1.isValid = false →
      ∃ s, (SimpleFacilitator.verify recover fac h req now).1.invalidReason = some s ∧
        s ≠ "" ∧
        SimpleFacilitator.settle recover fac h req now tx = (.failure s, fac)) ∧
    ((SimpleFacilitator.verify recover fac h req now).1.isValid = true →
      ∃ p, decodeHeader h = .ok p ∧ p.payload.nonce ∉ fac.usedNonces ∧
        SimpleFacilitator.settle recover fac h req now tx =
          (.success tx p.network, ⟨setAdd fac.usedNonces p.payload.nonce⟩)) := by
  constructor
  · intro hinv
    rcases verify_reason_shape recover fac h req now with hval | ⟨s, heq, hshape⟩
    · rw [hval] at hinv
      simp at hinv
    · have hne : s ≠ "" := by
        rcases hshape with hmem | ⟨m, -, rfl⟩
        · exact fixedReasons_ne_empty s hmem
        · exact verFailed_ne_empty m
      exact ⟨s, by rw [heq], hne, settle_of_invalid recover fac h req now tx s heq hne⟩
  · intro hval
    obtain ⟨p, hdec, -, -, -, -, hu, -, -, -, -, heq⟩ :=
      verify_valid_inv recover fac h req now hval
    cases h with
    | malformed m => simp [decodeHeader] at hdec
    | wellFormed p' =>
      have hp : p' = p := by simpa [decodeHeader] using hdec
      subst hp
      exact ⟨p', rfl, hu, settle_of_valid recover fac p' req now tx heq⟩

/-- C3 witness: an invalid verification (bad version) makes `settle` fail with
the verification's reason and leave the state unchanged; a valid one makes it
succeed and add the nonce. -/
theorem settle_verify_then_commit_wit :
    (∃ s, (SimpleFacilitator.verify recoverEx ⟨[]⟩ headerBadVer reqEx 100).1.invalidReason =
        some s ∧ s ≠ "" ∧
        SimpleFacilitator.settle recoverEx ⟨[]⟩ headerBadVer reqEx 100 "0xtx" =
          (.failure s, ⟨[]⟩)) ∧
    (∃ p, decodeHeader headerEx = .ok p ∧ p.payload.nonce ∉ (⟨[]⟩ : SimpleFacilitator).usedNonces ∧
        SimpleFacilitator.settle recoverEx ⟨[]⟩ headerEx reqEx 100 "0xtx" =
          (.success "0xtx" p.network, ⟨setAdd [] p.payload.nonce⟩)) :=
  ⟨(settle_verify_then_commit recoverEx ⟨[]⟩ headerBadVer reqEx 100 "0xtx").1 (by decide),
   (settle_verify_then_commit recoverEx ⟨[]⟩ headerEx reqEx 100 "0xtx").2 (by decide)⟩

/-- C4: the code allows two concurrent `settle` calls carrying the same nonce
to both succeed.  Under the Node event-loop schedule of
`Promise.all([settle, settle])` — both `verify` bodies, including the
`usedNonces.has` lookup, run synchronously before either commit — both calls
on the very same header return `success`, contradicting the claim (and the
spec's mutual-exclusion requirement) that exactly one can win. -/
theorem settle_concurrent_double_success :
    SimpleFacilitator.settleConcurrent recoverEx ⟨[]⟩ headerEx reqEx headerEx reqEx
        100 "0xtx1" "0xtx2" =
      (SettleResponse.success "0xtx1" "base-sepolia",
       SettleResponse.success "0xtx2" "base-sepolia", ⟨["0xn1"]⟩) := by
  decide

/-- C5 counterexample: every condition of the claim holds — version 1, scheme
and network equal to the requirement's, matching amount, case-insensitively
matching recipient, unexpired window, fresh nonce, and a signature that
recovers to `from` over the domain built from the requirement — yet because
the (matching) scheme is `"foo"`, not `"exact"`, `verify` returns invalid. -/
theorem verify_matching_nonexact_cex :
    headerFoo =
      .wellFormed { x402Version := 1, scheme := "foo", network := "base-sepolia",
                    payload := payEx } ∧
    reqFoo.scheme = "foo" ∧ reqFoo.network = "base-sepolia" ∧
    payEx.value = reqFoo.maxAmountRequired ∧
    strToLower payEx.to_ = strToLower reqFoo.payTo ∧
    (50 : Nat) ≤ payEx.validBefore ∧
    recoverEx (buildDomain reqFoo) (buildMessage payEx) payEx.signature = some "0xabcd" ∧
    strToLower "0xabcd" = strToLower payEx.from_ ∧
    (SimpleFacilitator.verify recoverEx ⟨[]⟩ headerFoo reqFoo 50).1 =
      ⟨false, some "Unsupported payment scheme"⟩ := by
  decide

/-- C5 (amended: the common scheme must additionally be `"exact"`): for every
requirement/authorization pair with version 1, scheme and network equal to the
requirement's, scheme `"exact"`, value equal to `maxAmountRequired`, recipient
case-insensitively equal to `payTo`, `validBefore` at or after `now`, a nonce
not in the used set, and a signature recovering over the EIP-712 domain built
from the requirement to the `from` address, `verify` returns valid. -/
theorem verify_valid_of_matching (recover : Recover) (fac : SimpleFacilitator)
    (p : PaymentPayload) (req : PaymentRequirement) (now : Nat) (a : String)
    (h1 : p.x402Version = 1) (hs : p.scheme = req.scheme) (hn : p.network = req.network)
    (he : p.scheme = "exact") (hv : p.payload.value = req.maxAmountRequired)
    (ht : strToLower p.payload.to_ = strToLower req.payTo)
    (hx : now ≤ p.payload.validBefore) (hu : p.payload.nonce ∉ fac.usedNonces)
    (hrec : recover (buildDomain req) (buildMessage p.payload) p.payload.signature = some a)
    (ha : strToLower a = strToLower p.payload.from_) :
    (SimpleFacilitator.verify recover fac (.wellFormed p) req now).1 = ⟨true, none⟩ := by
  have hsig : verifyEIP3009Signature recover p.payload req = true := by
    simp [verifyEIP3009Signature, hrec, ha]
  exact congrArg Prod.fst
    (verify_valid_eq recover fac p req now h1 hs hn he hu hv ht (Nat.not_lt.mpr hx) hsig)

/-- C5 witness: the concrete matching pair verifies as valid. -/
theorem verify_valid_of_matching_wit :
    (SimpleFacilitator.verify recoverEx ⟨[]⟩ (.wellFormed payloadEx) reqEx 100).1 =
      ⟨true, none⟩ :=
  verify_valid_of_matching recoverEx ⟨[]⟩ payloadEx reqEx 100 "0xabcd"
    rfl rfl rfl rfl rfl (by decide) (by decide) (by decide) rfl (by decide)

/-- C6 counterexample: a header whose nonce is already consumed but whose
version is also wrong is rejected with the unsupported-version reason, not the
nonce-reused one — the version check runs before the ledger lookup. -/
theorem verify_order_cex :
    payEx.nonce ∈ (["0xn1"] : List String) ∧
    (SimpleFacilitator.verify recoverEx ⟨["0xn1"]⟩ headerBadVer reqEx 100).1 =
      ⟨false, some "Unsupported x402 version"⟩ ∧
    (SimpleFacilitator.verify recoverEx ⟨["0xn1"]⟩ headerBadVer reqEx 100).1.invalidReason ≠
      some "Nonce already used" := by
  decide

/-- C6 (amended): `verify` evaluates its checks in the order decode, version,
scheme/network, then — within the `"exact"` branch — nonce reuse, amount,
recipient, expiry, signature, short-circuiting at the first failure with that
check's reason (non-`"exact"` matching schemes fall to the unsupported-scheme
reason); in particular a consumed nonce yields the nonce-reused reason
whatever the amount, recipient, timing or signature, provided the earlier
version and scheme/network checks pass. -/
theorem verify_check_order :
    (∀ (recover : Recover) (fac : SimpleFacilitator) (m : String)
        (req : PaymentRequirement) (now : Nat),
      SimpleFacilitator.verify recover fac (.malformed m) req now =
        (⟨false, some ("Verification failed: " ++ m)⟩, fac)) ∧
    (∀ (recover : Recover) (fac : SimpleFacilitator) (p : PaymentPayload)
        (req : PaymentRequirement) (now : Nat), p.x402Version ≠ 1 →
      SimpleFacilitator.verify recover fac (.wellFormed p) req now =
        (⟨false, some "Unsupported x402 version"⟩, fac)) ∧
    (∀ (recover : Recover) (fac : SimpleFacilitator) (p : PaymentPayload)
        (req : PaymentRequirement) (now : Nat), p.x402Version = 1 →
      p.scheme ≠ req.scheme ∨ p.network ≠ req.network →
      SimpleFacilitator.verify recover fac (.wellFormed p) req now =
        (⟨false, some "Scheme or network mismatch"⟩, fac)) ∧
    (∀ (recover : Recover) (fac : SimpleFacilitator) (p : PaymentPayload)
        (req : PaymentRequirement) (now : Nat), p.x402Version = 1 →
      p.scheme = req.scheme → p.network = req.network → p.scheme = "exact" →
      p.payload.nonce ∈ fac.usedNonces →
      SimpleFacilitator.verify recover fac (.wellFormed p) req now =
        (⟨false, some "Nonce already used"⟩, fac)) ∧
    (∀ (recover : Recover) (fac : SimpleFacilitator) (p : PaymentPayload)
        (req : PaymentRequirement) (now : Nat), p.x402Version = 1 →
      p.scheme = req.scheme → p.network = req.network → p.scheme = "exact" →
      p.payload.nonce ∉ fac.usedNonces → p.payload.value ≠ req.maxAmountRequired →
      SimpleFacilitator.verify recover fac (.wellFormed p) req now =
        (⟨false, some "Payment amount mismatch"⟩, fac)) ∧
    (∀ (recover : Recover) (fac : SimpleFacilitator) (p : PaymentPayload)
        (req : PaymentRequirement) (now : Nat), p.x402Version = 1 →
      p.scheme = req.scheme → p.network = req.network → p.scheme = "exact" →
      p.payload.nonce ∉ fac.usedNonces → p.payload.value = req.maxAmountRequired →
      strToLower p.payload.to_ ≠ strToLower req.payTo →
      SimpleFacilitator.verify recover fac (.wellFormed p) req now =
        (⟨false, some "Payment recipient mismatch"⟩, fac)) ∧
    (∀ (recover : Recover) (fac : SimpleFacilitator) (p : PaymentPayload)
        (req : PaymentRequirement) (now : Nat), p.x402Version = 1 →
      p.scheme = req.scheme → p.network = req.network → p.scheme = "exact" →
      p.payload.nonce ∉ fac.usedNonces → p.payload.value = req.maxAmountRequired →
      strToLower p.payload.to_ = strToLower req.payTo → p.payload.validBefore < now →
      SimpleFacilitator.verify recover fac (.wellFormed p) req now =
        (⟨false, some "Payment expired"⟩, fac)) ∧
    (∀ (recover : Recover) (fac : SimpleFacilitator) (p : PaymentPayload)
        (req : PaymentRequirement) (now : Nat), p.x402Version = 1 →
      p.scheme = req.scheme → p.network = req.network → p.scheme = "exact" →
      p.payload.nonce ∉ fac.usedNonces → p.payload.value = req.maxAmountRequired →
      strToLower p.payload.to_ = strToLower req.payTo → ¬ p.payload.validBefore < now →
      verifyEIP3009Signature recover p.payload req = false →
      SimpleFacilitator.verify recover fac (.wellFormed p) req now =
        (⟨false, some "Invalid signature"⟩, fac)) ∧
    (∀ (recover : Recover) (fac : SimpleFacilitator) (p : PaymentPayload)
        (req : PaymentRequirement) (now : Nat), p.x402Version = 1 →
      p.scheme = req.scheme → p.network = req.network → p.scheme = "exact" →
      p.payload.nonce ∉ fac.usedNonces → p.payload.value = req.maxAmountRequired →
      strToLower p.payload.to_ = strToLower req.payTo → ¬ p.payload.validBefore < now →
      verifyEIP3009Signature recover p.payload req = true →
      SimpleFacilitator.verify recover fac (.wellFormed p) req now = (⟨true, none⟩, fac)) ∧
    (∀ (recover : Recover) (fac : SimpleFacilitator) (p : PaymentPayload)
        (req : PaymentRequirement) (now : Nat), p.x402Version = 1 →
      p.scheme = req.scheme → p.network = req.network → p.scheme ≠ "exact" →
      SimpleFacilitator.verify recover fac (.wellFormed p) req now =
        (⟨false, some "Unsupported payment scheme"⟩, fac)) :=
  ⟨verify_malformed_eq, verify_badVersion_eq, verify_mismatch_eq, verify_nonceUsed_eq,
   verify_amountMismatch_eq, verify_recipientMismatch_eq, verify_expired_eq,
   verify_badSig_eq, verify_valid_eq, verify_nonexact_eq⟩

/-- C6 witness: a consumed-nonce header whose amount, recipient and timing are
all also wrong (and whose signature would not recover) still reports the
nonce-reused reason, because the ledger lookup short-circuits the later
checks. -/
theorem verify_check_order_wit :
    SimpleFacilitator.verify recoverEx ⟨["0xn1"]⟩ (.wellFormed payloadBadAll) reqEx 100 =
      (⟨false, some "Nonce already used"⟩, ⟨["0xn1"]⟩) :=
  verify_check_order.2.2.2.1 recoverEx ⟨["0xn1"]⟩ payloadBadAll reqEx 100
    rfl rfl rfl rfl (by decide)

lemma verify_expired_iff (recover : Recover) (fac : SimpleFacilitator)
    (p : PaymentPayload) (req : PaymentRequirement) (now : Nat)
    (h1 : p.x402Version = 1) (hs : p.scheme = req.scheme) (hn : p.network = req.network)
    (he : p.scheme = "exact") (hu : p.payload.nonce ∉ fac.usedNonces)
    (hv : p.payload.value = req.maxAmountRequired)
    (ht : strToLower p.payload.to_ = strToLower req.payTo) :
    ((SimpleFacilitator.verify recover fac (.wellFormed p) req now).1.invalidReason =
      some "Payment expired") ↔ p.payload.validBefore < now := by
  constructor
  · intro hr
    by_contra hx
    cases hsig : verifyEIP3009Signature recover p.payload req with
    | false =>
      rw [verify_badSig_eq recover fac p req now h1 hs hn he hu hv ht hx hsig] at hr
      exact absurd (Option.some.inj hr) (by decide)
    | true =>
      rw [verify_valid_eq recover fac p req now h1 hs hn he hu hv ht hx hsig] at hr
      exact Option.noConfusion hr
  · intro hx
    rw [verify_expired_eq recover fac p req now h1 hs hn he hu hv ht hx]

/-- C7: under the checks preceding the timing one, the only timing condition
`verify` enforces is `validBefore >= now`: the expired reason is reported
exactly when `validBefore < now`, so `validBefore = now` passes the timing
check while `validBefore = now - 1` is rejected as expired; and `validAfter`
is never consulted — replacing it by any value, future ones included, leaves
the timing verdict unchanged. -/
theorem verify_expiry_boundary (recover : Recover) (fac : SimpleFacilitator)
    (p : PaymentPayload) (req : PaymentRequirement) (now : Nat)
    (h1 : p.x402Version = 1) (hs : p.scheme = req.scheme) (hn : p.network = req.network)
    (he : p.scheme = "exact") (hu : p.payload.nonce ∉ fac.usedNonces)
    (hv : p.payload.value = req.maxAmountRequired)
    (ht : strToLower p.payload.to_ = strToLower req.payTo) :
    (((SimpleFacilitator.verify recover fac (.wellFormed p) req now).1.invalidReason =
        some "Payment expired") ↔ p.payload.validBefore < now) ∧
    (p.payload.validBefore = now →
      (SimpleFacilitator.verify recover fac (.wellFormed p) req now).1.invalidReason ≠
        some "Payment expired") ∧
    (p.payload.validBefore + 1 = now →
      (SimpleFacilitator.verify recover fac (.wellFormed p) req now).1 =
        ⟨false, some "Payment expired"⟩) ∧
    (∀ va : Nat,
      ((SimpleFacilitator.verify recover fac
          (.wellFormed { p with payload := { p.payload with validAfter := va } })
          req now).1.invalidReason = some "Payment expired") ↔
        p.payload.validBefore < now) := by
  have hiff := verify_expired_iff recover fac p req now h1 hs hn he hu hv ht
  refine ⟨hiff, ?_, ?_, ?_⟩
  · intro hb hr
    exact absurd (hiff.mp hr) (by omega)
  · intro hb
    exact congrArg Prod.fst
      (verify_expired_eq recover fac p req now h1 hs hn he hu hv ht (by omega))
  · intro va
    exact verify_expired_iff recover fac
      { p with payload := { p.payload with validAfter := va } } req now h1 hs hn he hu hv ht

/-- C7 witness: with `validBefore = 100`, verification at `now = 100` does not
report expiry, at `now = 101` it does, and a future `validAfter` of 1000 does
not trigger expiry at `now = 100`. -/
theorem verify_expiry_boundary_wit :
    ((SimpleFacilitator.verify recoverEx ⟨[]⟩ (.wellFormed payloadEx) reqEx 100).1.invalidReason ≠
      some "Payment expired") ∧
    (SimpleFacilitator.verify recoverEx ⟨[]⟩ (.wellFormed payloadEx) reqEx 101).1 =
      ⟨false, some "Payment expired"⟩ ∧
    ¬ ((SimpleFacilitator.verify recoverEx ⟨[]⟩
        (.wellFormed { payloadEx with
          payload := { payloadEx.payload with validAfter := 1000 } })
        reqEx 100).1.invalidReason = some "Payment expired") :=
  ⟨(verify_expiry_boundary recoverEx ⟨[]⟩ payloadEx reqEx 100
      rfl rfl rfl rfl (by decide) rfl (by decide)).2.1 rfl,
   (verify_expiry_boundary recoverEx ⟨[]⟩ payloadEx reqEx 101
      rfl rfl rfl rfl (by decide) rfl (by decide)).2.2.1 rfl,
   fun hc =>
     absurd (((verify_expiry_boundary recoverEx ⟨[]⟩ payloadEx reqEx 100
        rfl rfl rfl rfl (by decide) rfl (by decide)).2.2.2 1000).mp hc) (by decide)⟩

/-- C8 counterexample: two decode failures with different underlying parse
errors yield two different reasons, both of the open-ended form
`Verification failed: <error message>` — decode failures do not map to one
stable malformed reason drawn from a fixed taxonomy. -/
theorem verify_malformed_reason_cex :
    (SimpleFacilitator.verify recoverEx ⟨[]⟩
        (.malformed "Unexpected token h in JSON at position 0") reqEx 100).1.invalidReason =
      some "Verification failed: Unexpected token h in JSON at position 0" ∧
    (SimpleFacilitator.verify recoverEx ⟨[]⟩
        (.malformed "Unexpected end of JSON input") reqEx 100).1.invalidReason =
      some "Verification failed: Unexpected end of JSON input" ∧
    (SimpleFacilitator.verify recoverEx ⟨[]⟩
        (.malformed "Unexpected token h in JSON at position 0") reqEx 100).1.invalidReason ≠
      (SimpleFacilitator.verify recoverEx ⟨[]⟩
        (.malformed "Unexpected end of JSON input") reqEx 100).1.invalidReason := by
  decide

/-- C8 (amended): both `verify` and `settle` always return typed results; a
`verify` failure reason is either one of the eight fixed strings of
`fixedReasons` (the code's versions of the taxonomy, including the extra
unsupported-scheme reason) or, for a decode failure, the dynamic string
`Verification failed: <error message>`; a `settle` failure carries exactly one
of those same reasons. -/
theorem verify_settle_reason_taxonomy (recover : Recover) (fac : SimpleFacilitator)
    (h : PaymentHeader) (req : PaymentRequirement) (now : Nat) (tx : String) :
    ((SimpleFacilitator.verify recover fac h req now).1 = ⟨true, none⟩ ∨
      ∃ s, (SimpleFacilitator.verify recover fac h req now).1 = ⟨false, some s⟩ ∧
        (s ∈ fixedReasons ∨ ∃ m, h = PaymentHeader.malformed m ∧
          s = "Verification failed: " ++ m)) ∧
    ((∃ a, (SimpleFacilitator.settle recover fac h req now tx).1 =
        SettleResponse.success tx a) ∨
      ∃ s, (SimpleFacilitator.settle recover fac h req now tx).1 = .failure s ∧
        (s ∈ fixedReasons ∨ ∃ m, h = PaymentHeader.malformed m ∧
          s = "Verification failed: " ++ m)) := by
  refine ⟨verify_reason_shape recover fac h req now, ?_⟩
  rcases settle_shape recover fac h req now tx with ⟨p, -, -, heq⟩ | ⟨s, heq, hsh⟩
  · exact Or.inl ⟨p.network, by rw [heq]⟩
  · exact Or.inr ⟨s, by rw [heq], hsh⟩

/-- C9: the EIP-712 domain's chain id comes from the fixed table
base-sepolia → 84532, base → 8453, ethereum → 1, sepolia → 11155111, with
fallback 1 for every other network string; and an unknown network never causes
rejection by itself — a fully matching payment on an unknown network (signing
domain chain id 1) still verifies as valid. -/
theorem getChainId_table_fallback :
    getChainId "base-sepolia" = 84532 ∧ getChainId "base" = 8453 ∧
    getChainId "ethereum" = 1 ∧ getChainId "sepolia" = 11155111 ∧
    (∀ network : String, network ≠ "base-sepolia" → network ≠ "base" →
      network ≠ "ethereum" → network ≠ "sepolia" → getChainId network = 1) ∧
    (∀ req : PaymentRequirement, req.network ≠ "base-sepolia" → req.network ≠ "base" →
      req.network ≠ "ethereum" → req.network ≠ "sepolia" →
      (buildDomain req).chainId = 1) ∧
    (∀ (recover : Recover) (fac : SimpleFacilitator) (p : PaymentPayload)
        (req : PaymentRequirement) (now : Nat) (a : String),
      req.network ∉ (["base-sepolia", "base", "ethereum", "sepolia"] : List String) →
      p.x402Version = 1 → p.scheme = req.scheme → p.network = req.network →
      p.scheme = "exact" → p.payload.value = req.maxAmountRequired →
      strToLower p.payload.to_ = strToLower req.payTo → now ≤ p.payload.validBefore →
      p.payload.nonce ∉ fac.usedNonces →
      recover (buildDomain req) (buildMessage p.payload) p.payload.signature = some a →
      strToLower a = strToLower p.payload.from_ →
      (SimpleFacilitator.verify recover fac (.wellFormed p) req now).1 = ⟨true, none⟩) := by
  refine ⟨by decide, by decide, by decide, by decide, ?_, ?_, ?_⟩
  · intro network h1 h2 h3 h4
    simp [getChainId, h1, h2, h3, h4]
  · intro req h1 h2 h3 h4
    simp [buildDomain, getChainId, h1, h2, h3, h4]
  · intro recover fac p req now a hnet h1 hs hn he hv ht hx hu hrec ha
    have hsig : verifyEIP3009Signature recover p.payload req = true := by
      simp [verifyEIP3009Signature, hrec, ha]
    exact congrArg Prod.fst
      (verify_valid_eq recover fac p req now h1 hs hn he hu hv ht (Nat.not_lt.mpr hx) hsig)

/-- C9 witness: `"polygon"` is unmapped, gets chain id 1 in the signing
domain, and a fully matching payment on it still verifies as valid. -/
theorem getChainId_table_fallback_wit :
    getChainId "polygon" = 1 ∧ (buildDomain reqPoly).chainId = 1 ∧
    (SimpleFacilitator.verify recoverEx ⟨[]⟩ (.wellFormed payloadPoly) reqPoly 100).1 =
      ⟨true, none⟩ :=
  ⟨getChainId_table_fallback.2.2.2.2.1 "polygon"
      (by decide) (by decide) (by decide) (by decide),
   getChainId_table_fallback.2.2.2.2.2.1 reqPoly
      (by decide) (by decide) (by decide) (by decide),
   getChainId_table_fallback.2.2.2.2.2.2 recoverEx ⟨[]⟩ payloadPoly reqPoly 100 "0xabcd"
      (by decide) rfl rfl rfl rfl rfl (by decide) (by decide) (by decide) rfl (by decide)⟩

/-- C10: a header that decodes, has version 1, and whose scheme and network
match the requirement's but whose scheme is not `"exact"` is rejected with the
reason `Unsupported payment scheme`; the result is the same for every
used-nonce set, clock reading and recovery oracle, and for every amount,
recipient and window in the payload — none of them is consulted. -/
theorem verify_unsupported_scheme (recover : Recover) (fac : SimpleFacilitator)
    (p : PaymentPayload) (req : PaymentRequirement) (now : Nat)
    (h1 : p.x402Version = 1) (hs : p.scheme = req.scheme) (hn : p.network = req.network)
    (he : p.scheme ≠ "exact") :
    SimpleFacilitator.verify recover fac (.wellFormed p) req now =
      (⟨false, some "Unsupported payment scheme"⟩, fac) :=
  verify_nonexact_eq recover fac p req now h1 hs hn he

/-- C10 witness: the matching-`"foo"`-scheme fixture is rejected with the
unsupported-scheme reason. -/
theorem verify_unsupported_scheme_wit :
    SimpleFacilitator.verify recoverEx ⟨[]⟩ (.wellFormed payloadFoo) reqFoo 50 =
      (⟨false, some "Unsupported payment scheme"⟩, ⟨[]⟩) :=
  verify_unsupported_scheme recoverEx ⟨[]⟩ payloadFoo reqFoo 50 rfl rfl rfl (by decide)

end X402
